import Mathlib

/-!
Shallow embedding of `bambu_status.py` (`get_bambu_printer_status`), the
single-shot MQTT status-retrieval session of the bambu-bar repository, and
proofs about it.

The Python function is callback-driven: the paho network loop delivers
`on_connect` / `on_message` / `on_connect_fail` / `on_disconnect` events on its
own thread while the caller blocks on `message_received_event.wait(timeout)`.
We embed one session as a fold of those callback events over the mutable cells
(`status_data`, `message_received_event`, `connection_error`), split into the
events delivered before the wait returns (`pre`) and the events delivered after
the wait returns but before `client.loop_stop()` completes (`post`).  Python
values parsed from JSON are embedded as `Json`; Python dynamic-typing failures
(`AttributeError` from `.get` on a non-dict, `TypeError` from `>` between a
non-number and `0`) are embedded as `Except PyErr`.
-/

namespace Bambu

/-- A parsed JSON document, the result of `json.loads` in `on_message`.
Objects are association lists keyed by strings. -/
inductive Json where
  | null
  | bool (b : Bool)
  | num (n : Int)
  | str (s : String)
  | arr (elems : List Json)
  | obj (kvs : List (String × Json))

/-- Python exceptions that the classification code after the wait can raise:
`AttributeError` from `.get` on a value that is not a dict, `TypeError` from
comparing a non-number with `0` via `>`.  `interrupted` stands for an
exception raised inside the `try` block (e.g. `KeyboardInterrupt` during the
wait). -/
inductive PyErr where
  | attributeError
  | typeError
  | interrupted
deriving DecidableEq

/-- Python `d.get(k, default)`: succeeds on dicts, raises `AttributeError`
on every other value. -/
def pyGet : Json → String → Json → Except PyErr Json
  | .obj kvs, k, d => .ok ((List.lookup k kvs).getD d)
  | _, _, _ => .error .attributeError

/-- Python `gcode_state in ["FINISH", "FAILED", "IDLE"]` (line 106): list
membership tests `==` against each element; a non-string is `==` to none of
the three strings. -/
def inDoneList : Json → Bool
  | .str s => s == "FINISH" || s == "FAILED" || s == "IDLE"
  | _ => false

/-- Python `gcode_state == "RUNNING"`: true exactly for the string value. -/
def isRunningStr : Json → Bool
  | .str s => s == "RUNNING"
  | _ => false

/-- Python `remaining_time == 0` (line 106): ints compare numerically,
`False == 0` is `True`, every other JSON value is not `==` to `0`. -/
def pyEqZero : Json → Bool
  | .num n => n == 0
  | .bool b => !b
  | _ => false

/-- Python `remaining_time > 0` (line 108): defined for numbers and bools
(`True` is `1`), raises `TypeError` for every other value. -/
def pyGtZero : Json → Except PyErr Bool
  | .num n => .ok (decide (0 < n))
  | .bool b => .ok b
  | _ => .error .typeError

/-- The integer value of a JSON number or bool, used for `//` and `%` once
`remaining_time > 0` has succeeded (so the value is a number or a bool). -/
def pyIntVal : Json → Int
  | .num n => n
  | .bool b => if b then 1 else 0
  | _ => 0

/-- The classification step, lines 102-117 of `get_bambu_printer_status`:

    print_data = status_data.get("print", {})
    remaining_time = print_data.get("mc_remaining_time", -1)
    gcode_state = print_data.get("gcode_state", "")
    if gcode_state in ["FINISH", "FAILED", "IDLE"] or (gcode_state == "RUNNING" and remaining_time == 0):
        return "Done"
    elif remaining_time > 0 and gcode_state == "RUNNING":
        hours = remaining_time // 60
        minutes = remaining_time % 60
        return f"{hours}h {minutes}m" if hours > 0 else f"{minutes} minutes"
    else:
        return "Unknown"

Python `//` on ints is floor division and `%` takes the divisor's sign, so
they are `Int.fdiv` and `Int.fmod`.  `and` / `or` short-circuit, so line 106
never evaluates `remaining_time == 0` when the done-list test succeeds, and
`remaining_time > 0` (the only comparison that can raise `TypeError`) is
evaluated first on line 108. -/
def classify (status_data : Json) : Except PyErr String :=
  match pyGet status_data "print" (.obj []) with
  | .error e => .error e
  | .ok print_data =>
    match pyGet print_data "mc_remaining_time" (.num (-1)) with
    | .error e => .error e
    | .ok remaining_time =>
      match pyGet print_data "gcode_state" (.str "") with
      | .error e => .error e
      | .ok gcode_state =>
        if inDoneList gcode_state || (isRunningStr gcode_state && pyEqZero remaining_time) then
          .ok "Done"
        else
          match pyGtZero remaining_time with
          | .error e => .error e
          | .ok gt =>
            if gt && isRunningStr gcode_state then
              let r := pyIntVal remaining_time
              let hours := Int.fdiv r 60
              let minutes := Int.fmod r 60
              if 0 < hours then .ok (toString hours ++ "h " ++ toString minutes ++ "m")
              else .ok (toString minutes ++ " minutes")
            else
              .ok "Unknown"

/-- The spec's `ClassifiedStatus` result type: `Done`, `Remaining{hours,
minutes}`, or `Unknown`. -/
inductive ClassifiedStatus where
  | done
  | remaining (hours minutes : Int)
  | unknown

/-- How the code renders each `ClassifiedStatus` variant as its return string
(lines 107, 111-114, 117). -/
def render : ClassifiedStatus → String
  | .done => "Done"
  | .remaining h m =>
      if 0 < h then toString h ++ "h " ++ toString m ++ "m"
      else toString m ++ " minutes"
  | .unknown => "Unknown"

/-! Session model: the mutable cells of `get_bambu_printer_status` and the
callbacks that the paho network loop runs on them. -/

/-- These three characters of state are the closure cells of
`get_bambu_printer_status`: `status_data = None`,
`message_received_event = threading.Event()` (a set/unset flag),
`connection_error = None`. -/
structure SessionState where
  status_data : Option Json
  event_set : Bool
  connection_error : Option String

/-- The state at the top of the function (lines 28-30). -/
def initState : SessionState := ⟨none, false, none⟩

/-- One callback invocation by the network loop.  `message none` is a payload
`json.loads` failed to parse (`JSONDecodeError`); `message (some p)` carries
the parsed document.  `disconnected` is the `on_disconnect` callback. -/
inductive NetEvent where
  | connect (rc : Nat)
  | message (parsed : Option Json)
  | connectFail
  | disconnected

/-- Externally visible side effects of one session, in order of occurrence. -/
inductive Action where
  | connectAsync (host : String) (port : Nat)
  | loopStart
  | loopStop
  | disconnect
  | subscribe (topic : String)
  | publish (topic : String) (payload : Json)

/-- Line 25: `subscribe_topic = f"device/{serial}/report"`. -/
def subscribeTopic (serial : String) : String := "device/" ++ serial ++ "/report"

/-- Line 24: `publish_topic = f"device/{serial}/request"`. -/
def publishTopic (serial : String) : String := "device/" ++ serial ++ "/request"

/-- Line 26: `status_payload = {"pushing": {"sequence_id": "0", "command": "pushall"}}`. -/
def statusPayload : Json :=
  .obj [("pushing", .obj [("sequence_id", .str "0"), ("command", .str "pushall")])]

/-- Character-list version of Python substring search, for `"print" in payload`
when the payload is a string. -/
def subChars (needle : List Char) : List Char → Bool
  | [] => needle.isEmpty
  | c :: t => List.isPrefixOf needle (c :: t) || subChars needle t

/-- Python `"print" in payload` (line 49) on an arbitrary parsed document:
key membership for dicts, element equality for lists, substring for strings.
On numbers, bools and `None`, `in` raises `TypeError`, which the
`except Exception` handler of `on_message` swallows, so the message is
ignored exactly as if the test were false. -/
def qualifies : Json → Bool
  | .obj kvs => (List.lookup "print" kvs).isSome
  | .arr elems => elems.any fun j => match j with | .str s => s == "print" | _ => false
  | .str s => subChars "print".toList s.toList
  | _ => false

/-- One callback dispatch: the state update it performs on the closure cells
and the transport actions it issues.

* `on_connect` (lines 32-41): on `rc == 0` subscribe then publish; otherwise
  record the error string and set the event.
* `on_message` (lines 43-57): parse failure or a payload without a `print`
  section is ignored (the `except` clauses only print); a qualifying payload
  is stored in `status_data` — unconditionally, even if one was already
  stored — and the event is set.
* `on_connect_fail` (lines 64-68): record the error string and set the event.
* `on_disconnect` (lines 60-62): `pass`. -/
def step (serial : String) (s : SessionState) : NetEvent → SessionState × List Action
  | .connect rc =>
    if rc = 0 then
      (s, [.subscribe (subscribeTopic serial), .publish (publishTopic serial) statusPayload])
    else
      ({ s with connection_error := some ("Failed to connect, return code " ++ toString rc),
                event_set := true }, [])
  | .message parsed =>
    (match parsed with
     | some payload =>
       if qualifies payload then { s with status_data := some payload, event_set := true } else s
     | none => s, [])
  | .connectFail =>
    ({ s with connection_error := some "MQTT connection failed.", event_set := true }, [])
  | .disconnected => (s, [])

/-- Sequential delivery of a list of callback events by the network loop. -/
def runEv (serial : String) (s : SessionState) : List NetEvent → SessionState × List Action
  | [] => (s, [])
  | e :: es =>
    let sa := step serial s e
    let rest := runEv serial sa.1 es
    (rest.1, sa.2 ++ rest.2)

/-- Python truthiness of a parsed document, for `elif status_data:` (line 99). -/
def truthy : Json → Bool
  | .null => false
  | .bool b => b
  | .num n => !(n == 0)
  | .str s => !(s == "")
  | .arr elems => !elems.isEmpty
  | .obj kvs => !kvs.isEmpty

/-- The observable outcome of one session: the ordered transport-action log
and the function's result (`.error` = an exception propagated to the caller). -/
structure FetchRun where
  log : List Action
  result : Except PyErr String

/-- One call of `get_bambu_printer_status(ip, serial, access_code, timeout)`.

`pre` are the callback events the network loop delivers before
`message_received_event.wait(timeout)` returns (line 87); `event_triggered`
is the flag value `wait` returns, i.e. whether those events set the event.
`post` are the events delivered after the wait returns but before
`client.loop_stop()` (line 90) takes effect; they still mutate the closure
cells but cannot change the captured `event_triggered`.  `exc` models an
exception raised inside the `try` block (e.g. during the wait); the
`finally` clause (lines 89-91) appends `loop_stop` and `disconnect` to the
log in every case, after which the exception, if any, propagates.

The result resolution is lines 93-120: a recorded `connection_error` wins,
then a timeout (`not event_triggered`), then a truthy `status_data` is
classified, else `"Unknown"`. -/
def fetch (ip serial : String) (exc : Option PyErr) (pre post : List NetEvent) : FetchRun :=
  let r1 := runEv serial initState pre
  let event_triggered := r1.1.event_set
  let r2 := runEv serial r1.1 post
  let log := [Action.connectAsync ip 8883, Action.loopStart] ++ r1.2 ++ r2.2 ++
             [Action.loopStop, Action.disconnect]
  let result : Except PyErr String :=
    match exc with
    | some e => .error e
    | none =>
      if r2.1.connection_error.isSome then .ok "Unknown"
      else if !event_triggered then .ok "Unknown"
      else
        match r2.1.status_data with
        | some d => if truthy d then classify d else .ok "Unknown"
        | none => .ok "Unknown"
  ⟨log, result⟩

/-! Claim theorems for the classifier (spec section 4.1). -/

/-- C3: for every qualifying report whose `gcode_state` is `FINISH`, `FAILED`
or `IDLE`, classification returns `Done` regardless of the
`mc_remaining_time` value, and a `RUNNING` report with `mc_remaining_time`
equal to `0` also returns `Done` (resolved on line 106, before the
`RUNNING`-with-positive-time branch of line 108 is reached). -/
theorem c3_done_states (p pd : List (String × Json)) (g : String)
    (hp : List.lookup "print" p = some (.obj pd))
    (hg : (List.lookup "gcode_state" pd).getD (.str "") = .str g)
    (hcase : g = "FINISH" ∨ g = "FAILED" ∨ g = "IDLE" ∨
      (g = "RUNNING" ∧ (List.lookup "mc_remaining_time" pd).getD (.num (-1)) = .num 0)) :
    classify (.obj p) = .ok "Done" := by
  rcases hcase with h | h | h | ⟨h, hmc⟩ <;> subst h
  · simp [classify, pyGet, hp, hg, inDoneList]
  · simp [classify, pyGet, hp, hg, inDoneList]
  · simp [classify, pyGet, hp, hg, inDoneList]
  · simp [classify, pyGet, hp, hg, hmc, inDoneList, isRunningStr, pyEqZero]

/-- C3 witness at a concrete report. -/
theorem c3_witness :
    classify (.obj [("print", .obj [("gcode_state", .str "FINISH"),
        ("mc_remaining_time", .num 9999)])]) = .ok "Done" :=
  c3_done_states [("print", .obj [("gcode_state", .str "FINISH"),
      ("mc_remaining_time", .num 9999)])]
    [("gcode_state", .str "FINISH"), ("mc_remaining_time", .num 9999)]
    "FINISH" rfl rfl (Or.inl rfl)

/-- C4: for every qualifying report with `gcode_state = "RUNNING"` and a
strictly positive integer `mc_remaining_time = r`, classification returns
the `Remaining` rendering with `hours = r // 60` (floor division) and
`minutes = r % 60`, where hours is non-negative and minutes lies in
`0..59`. -/
theorem c4_remaining_arithmetic (p pd : List (String × Json)) (r : Int)
    (hp : List.lookup "print" p = some (.obj pd))
    (hg : (List.lookup "gcode_state" pd).getD (.str "") = .str "RUNNING")
    (hmc : (List.lookup "mc_remaining_time" pd).getD (.num (-1)) = .num r)
    (hr : 0 < r) :
    classify (.obj p) = .ok (render (.remaining (Int.fdiv r 60) (Int.fmod r 60))) ∧
      0 ≤ Int.fdiv r 60 ∧ 0 ≤ Int.fmod r 60 ∧ Int.fmod r 60 < 60 := by
  refine ⟨?_, Int.fdiv_nonneg (le_of_lt hr) (by decide),
    Int.fmod_nonneg' r (by decide), Int.fmod_lt_of_pos r (by decide)⟩
  have hne : (r == 0) = false := beq_eq_false_iff_ne.mpr (by omega)
  have hgt : decide (0 < r) = true := decide_eq_true hr
  simp [classify, pyGet, hp, hg, hmc, inDoneList, isRunningStr, pyEqZero,
    pyGtZero, pyIntVal, hne, hgt, render]
  split <;> rfl

/-- C4 witness: the spec's two concrete examples, 125 minutes and 45
minutes. -/
theorem c4_witness :
    classify (.obj [("print", .obj [("gcode_state", .str "RUNNING"),
        ("mc_remaining_time", .num 125)])]) = .ok "2h 5m" ∧
    classify (.obj [("print", .obj [("gcode_state", .str "RUNNING"),
        ("mc_remaining_time", .num 45)])]) = .ok "45 minutes" :=
  ⟨(c4_remaining_arithmetic
      [("print", .obj [("gcode_state", .str "RUNNING"), ("mc_remaining_time", .num 125)])]
      [("gcode_state", .str "RUNNING"), ("mc_remaining_time", .num 125)]
      125 rfl rfl rfl (by decide)).1.trans rfl,
   (c4_remaining_arithmetic
      [("print", .obj [("gcode_state", .str "RUNNING"), ("mc_remaining_time", .num 45)])]
      [("gcode_state", .str "RUNNING"), ("mc_remaining_time", .num 45)]
      45 rfl rfl rfl (by decide)).1.trans rfl⟩

/-- C5 counterexample: a qualifying report that matches no `Done` or
`Remaining` branch (`gcode_state = "PAUSE"`, not one of the four recognized
strings) with a non-integer `mc_remaining_time` makes line 108 evaluate
`"soon" > 0`, which raises `TypeError` instead of returning `"Unknown"`. -/
theorem c5_cex :
    classify (.obj [("print", .obj [("gcode_state", .str "PAUSE"),
        ("mc_remaining_time", .str "soon")])]) = .error .typeError ∧
    classify (.obj [("print", .obj [("gcode_state", .str "PAUSE"),
        ("mc_remaining_time", .str "soon")])]) ≠ .ok "Unknown" :=
  ⟨rfl, fun h => nomatch h⟩

/-- C5 as amended: for every qualifying report whose `mc_remaining_time` is
an integer or absent, if `gcode_state` is not one of the four recognized
strings, or is `RUNNING` with negative (e.g. the `-1` sentinel) or absent
remaining time, classification returns `Unknown`. -/
theorem c5_fallthrough_unknown (p pd : List (String × Json)) (g mc : Json)
    (hp : List.lookup "print" p = some (.obj pd))
    (hg : (List.lookup "gcode_state" pd).getD (.str "") = g)
    (hmc : (List.lookup "mc_remaining_time" pd).getD (.num (-1)) = mc)
    (hcase : (inDoneList g = false ∧ isRunningStr g = false ∧ ∃ r : Int, mc = .num r) ∨
             (g = .str "RUNNING" ∧ ∃ r : Int, mc = .num r ∧ r < 0)) :
    classify (.obj p) = .ok "Unknown" := by
  rcases hcase with ⟨h1, h2, r, hrq⟩ | ⟨h1, r, hrq, hneg⟩
  · subst hrq
    by_cases hr : 0 < r <;>
      simp [classify, pyGet, hp, hg, hmc, h1, h2, pyEqZero, pyGtZero, hr]
  · subst h1; subst hrq
    have hne : (r == 0) = false := beq_eq_false_iff_ne.mpr (by omega)
    have hgt : decide (0 < r) = false := decide_eq_false (by omega)
    simp [classify, pyGet, hp, hg, hmc, inDoneList, isRunningStr, pyEqZero,
      pyGtZero, hne, hgt]

/-- C5 witness: the spec's `RUNNING` with the `-1` sentinel example. -/
theorem c5_witness :
    classify (.obj [("print", .obj [("gcode_state", .str "RUNNING"),
        ("mc_remaining_time", .num (-1))])]) = .ok "Unknown" :=
  c5_fallthrough_unknown
    [("print", .obj [("gcode_state", .str "RUNNING"), ("mc_remaining_time", .num (-1))])]
    [("gcode_state", .str "RUNNING"), ("mc_remaining_time", .num (-1))]
    (.str "RUNNING") (.num (-1)) rfl rfl rfl
    (Or.inr ⟨rfl, -1, rfl, by decide⟩)

/-- C6 counterexample: `{"print": 0}` qualifies (the key is present, line 49)
but its print section is not a mapping, so line 102's
`status_data.get("print", {})` yields `0` and line 103's
`0.get("mc_remaining_time", -1)` raises `AttributeError`: classification is
not total on qualifying payloads of arbitrary shape. -/
theorem c6_cex :
    qualifies (.obj [("print", .num 0)]) = true ∧
    classify (.obj [("print", .num 0)]) = .error .attributeError :=
  ⟨rfl, rfl⟩

/-- C6 as amended: classification is total — returns one of the three
`ClassifiedStatus` variants without raising — on every qualifying payload
that is a mapping whose `print` section is a mapping and whose
`mc_remaining_time` is an integer or absent (`gcode_state` may be any
value; an unrecognized lifecycle string falls through to `Unknown`). -/
theorem c6_classifier_total (p pd : List (String × Json)) (r : Int)
    (hp : List.lookup "print" p = some (.obj pd))
    (hmc : (List.lookup "mc_remaining_time" pd).getD (.num (-1)) = .num r) :
    ∃ c : ClassifiedStatus, classify (.obj p) = .ok (render c) := by
  by_cases h1 : (inDoneList ((List.lookup "gcode_state" pd).getD (.str "")) ||
      (isRunningStr ((List.lookup "gcode_state" pd).getD (.str "")) &&
        pyEqZero (.num r))) = true
  · exact ⟨.done, by simp [classify, pyGet, hp, hmc, h1, render]⟩
  · by_cases h2 : (decide (0 < r) &&
        isRunningStr ((List.lookup "gcode_state" pd).getD (.str ""))) = true
    · refine ⟨.remaining (Int.fdiv r 60) (Int.fmod r 60), ?_⟩
      simp [classify, pyGet, hp, hmc, h1, pyGtZero, pyIntVal, h2, render]
      split <;> rfl
    · exact ⟨.unknown, by simp [classify, pyGet, hp, hmc, h1, pyGtZero, h2, render]⟩

/-- C6 witness: a report with an empty print section classifies without
raising. -/
theorem c6_witness :
    ∃ c : ClassifiedStatus, classify (.obj [("print", .obj [])]) = .ok (render c) :=
  c6_classifier_total [("print", .obj [])] [] (-1) rfl rfl

/-! Session predicates and helper lemmas. -/

/-- A callback event that records a connection error: `on_connect` with a
nonzero return code, or `on_connect_fail`. -/
def isFailEvt : NetEvent → Bool
  | .connect rc => decide (rc ≠ 0)
  | .connectFail => true
  | _ => false

/-- A callback event that sets `message_received_event`. -/
def sigEvt : NetEvent → Bool
  | .connect rc => decide (rc ≠ 0)
  | .message (some p) => qualifies p
  | .message none => false
  | .connectFail => true
  | .disconnected => false

/-- A successful `on_connect` (return code 0). -/
def isConnOK : NetEvent → Bool
  | .connect rc => rc == 0
  | _ => false

def isLoopStop : Action → Bool
  | .loopStop => true
  | _ => false

def isDisconnect : Action → Bool
  | .disconnect => true
  | _ => false

/-- A `subscribe` to this serial's report topic. -/
def isSubAct (serial : String) : Action → Bool
  | .subscribe t => t == subscribeTopic serial
  | _ => false

/-- A `publish` to this serial's request topic. -/
def isPubAct (serial : String) : Action → Bool
  | .publish t _ => t == publishTopic serial
  | _ => false

/-- The last qualifying message payload in a list of callback events: what
`status_data` holds after they have all been delivered, since `on_message`
overwrites the cell unconditionally. -/
def lastQual (es : List NetEvent) : Option Json :=
  es.foldl
    (fun acc e =>
      match e with
      | NetEvent.message (some p) => if qualifies p then some p else acc
      | _ => acc)
    none

theorem runEv_append (serial : String) (l1 l2 : List NetEvent) (s : SessionState) :
    runEv serial s (l1 ++ l2) =
      ((runEv serial (runEv serial s l1).1 l2).1,
       (runEv serial s l1).2 ++ (runEv serial (runEv serial s l1).1 l2).2) := by
  induction l1 generalizing s with
  | nil => simp [runEv]
  | cons e rest ih => simp [runEv, ih]

theorem step_err_mono (serial : String) (s : SessionState) (e : NetEvent)
    (h : s.connection_error.isSome = true) :
    ((step serial s e).1).connection_error.isSome = true := by
  cases e with
  | connect rc => by_cases hrc : rc = 0 <;> simp [step, hrc, h]
  | message parsed =>
    cases parsed with
    | none => simpa [step] using h
    | some payload => by_cases hq : qualifies payload <;> simp [step, hq, h]
  | connectFail => simp [step]
  | disconnected => simpa [step] using h

theorem runEv_err_mono (serial : String) (es : List NetEvent) (s : SessionState)
    (h : s.connection_error.isSome = true) :
    ((runEv serial s es).1).connection_error.isSome = true := by
  induction es generalizing s with
  | nil => simpa [runEv] using h
  | cons e rest ih => simpa [runEv] using ih _ (step_err_mono serial s e h)

theorem step_fail_sets (serial : String) (s : SessionState) (e : NetEvent)
    (h : isFailEvt e = true) :
    ((step serial s e).1).connection_error.isSome = true := by
  cases e with
  | connect rc =>
    have hrc : ¬ rc = 0 := by simpa [isFailEvt] using h
    simp [step, hrc]
  | message parsed => simp [isFailEvt] at h
  | connectFail => simp [step]
  | disconnected => simp [isFailEvt] at h

theorem runEv_fail_err (serial : String) (es : List NetEvent) (s : SessionState)
    (h : es.any isFailEvt = true) :
    ((runEv serial s es).1).connection_error.isSome = true := by
  induction es generalizing s with
  | nil => simp at h
  | cons e rest ih =>
    simp only [List.any_cons, Bool.or_eq_true] at h
    have hunf : (runEv serial s (e :: rest)).1 = (runEv serial (step serial s e).1 rest).1 := by
      simp [runEv]
    rw [hunf]
    rcases h with h | h
    · exact runEv_err_mono serial rest _ (step_fail_sets serial s e h)
    · exact ih _ h

theorem step_event (serial : String) (s : SessionState) (e : NetEvent) :
    ((step serial s e).1).event_set = (s.event_set || sigEvt e) := by
  cases e with
  | connect rc => by_cases hrc : rc = 0 <;> simp [step, sigEvt, hrc]
  | message parsed =>
    cases parsed with
    | none => simp [step, sigEvt]
    | some payload => by_cases hq : qualifies payload <;> simp [step, sigEvt, hq]
  | connectFail => simp [step, sigEvt]
  | disconnected => simp [step, sigEvt]

theorem runEv_event_any (serial : String) (es : List NetEvent) (s : SessionState) :
    ((runEv serial s es).1).event_set = (s.event_set || es.any sigEvt) := by
  induction es generalizing s with
  | nil => simp [runEv]
  | cons e rest ih =>
    have hunf : (runEv serial s (e :: rest)).1 = (runEv serial (step serial s e).1 rest).1 := by
      simp [runEv]
    rw [hunf, ih, step_event, List.any_cons, Bool.or_assoc]

theorem step_status (serial : String) (s : SessionState) (e : NetEvent) :
    ((step serial s e).1).status_data =
      (match e with
       | NetEvent.message (some p) => if qualifies p then some p else s.status_data
       | _ => s.status_data) := by
  cases e with
  | connect rc => by_cases hrc : rc = 0 <;> simp [step, hrc]
  | message parsed =>
    cases parsed with
    | none => simp [step]
    | some payload => by_cases hq : qualifies payload <;> simp [step, hq]
  | connectFail => simp [step]
  | disconnected => simp [step]

theorem runEv_status_foldl (serial : String) (es : List NetEvent) (s : SessionState) :
    ((runEv serial s es).1).status_data =
      es.foldl
        (fun acc e =>
          match e with
          | NetEvent.message (some p) => if qualifies p then some p else acc
          | _ => acc)
        s.status_data := by
  induction es generalizing s with
  | nil => simp [runEv]
  | cons e rest ih =>
    have hunf : (runEv serial s (e :: rest)).1 = (runEv serial (step serial s e).1 rest).1 := by
      simp [runEv]
    rw [hunf, ih, List.foldl_cons, step_status]

theorem step_acts_no_teardown (serial : String) (s : SessionState) (e : NetEvent) :
    ((step serial s e).2).countP isLoopStop = 0 ∧
    ((step serial s e).2).countP isDisconnect = 0 := by
  cases e with
  | connect rc =>
    by_cases hrc : rc = 0 <;>
      simp [step, hrc, List.countP_cons, isLoopStop, isDisconnect]
  | message parsed => simp [step]
  | connectFail => simp [step]
  | disconnected => simp [step]

theorem runEv_acts_no_teardown (serial : String) (es : List NetEvent) (s : SessionState) :
    ((runEv serial s es).2).countP isLoopStop = 0 ∧
    ((runEv serial s es).2).countP isDisconnect = 0 := by
  induction es generalizing s with
  | nil => simp [runEv]
  | cons e rest ih =>
    have hunf : (runEv serial s (e :: rest)).2 =
        (step serial s e).2 ++ (runEv serial (step serial s e).1 rest).2 := by
      simp [runEv]
    obtain ⟨h1, h2⟩ := step_acts_no_teardown serial s e
    obtain ⟨i1, i2⟩ := ih (step serial s e).1
    rw [hunf]
    constructor <;> rw [List.countP_append] <;> omega

/-- Scan of an action log: `true` when no `publish` to this serial's request
topic occurs before a `subscribe` to this serial's report topic has occurred
(`seen` records whether such a subscribe has already been passed). -/
def orderOK (serial : String) : Bool → List Action → Bool
  | _, [] => true
  | seen, a :: rest =>
    match a with
    | .subscribe t => orderOK serial (seen || (t == subscribeTopic serial)) rest
    | .publish t _ => (seen || !(t == publishTopic serial)) && orderOK serial seen rest
    | _ => orderOK serial seen rest

theorem orderOK_runEv (serial : String) (es : List NetEvent) (s : SessionState)
    (seen : Bool) (tail : List Action) (htail : ∀ b, orderOK serial b tail = true) :
    orderOK serial seen ((runEv serial s es).2 ++ tail) = true := by
  induction es generalizing s seen with
  | nil => simpa [runEv] using htail seen
  | cons e rest ih =>
    have hunf : (runEv serial s (e :: rest)).2 =
        (step serial s e).2 ++ (runEv serial (step serial s e).1 rest).2 := by
      simp [runEv]
    rw [hunf, List.append_assoc]
    cases e with
    | connect rc =>
      by_cases hrc : rc = 0
      · simp only [step, hrc, if_pos rfl, List.cons_append, List.nil_append, orderOK,
          beq_self_eq_true, Bool.or_true, Bool.true_or, Bool.true_and]
        exact ih _ true
      · simp only [step, hrc, if_neg hrc, List.nil_append]
        exact ih _ seen
    | message parsed =>
      have hacts : (step serial s (NetEvent.message parsed)).2 = [] := rfl
      rw [hacts, List.nil_append]
      exact ih _ seen
    | connectFail =>
      have hacts : (step serial s NetEvent.connectFail).2 = [] := rfl
      rw [hacts, List.nil_append]
      exact ih _ seen
    | disconnected =>
      have hacts : (step serial s NetEvent.disconnected).2 = [] := rfl
      rw [hacts, List.nil_append]
      exact ih _ seen

theorem runEv_connOK_acts (serial : String) (es : List NetEvent) (s : SessionState)
    (h : es.any isConnOK = true) :
    ((runEv serial s es).2).any (isSubAct serial) = true ∧
    ((runEv serial s es).2).any (isPubAct serial) = true := by
  induction es generalizing s with
  | nil => simp at h
  | cons e rest ih =>
    have hunf : (runEv serial s (e :: rest)).2 =
        (step serial s e).2 ++ (runEv serial (step serial s e).1 rest).2 := by
      simp [runEv]
    rw [hunf]
    simp only [List.any_cons, Bool.or_eq_true] at h
    rcases h with h | h
    · cases e with
      | connect rc =>
        have hrc : rc = 0 := by simpa [isConnOK] using h
        subst hrc
        constructor <;>
          simp [step, List.any_append, List.any_cons, isSubAct, isPubAct]
      | message parsed => simp [isConnOK] at h
      | connectFail => simp [isConnOK] at h
      | disconnected => simp [isConnOK] at h
    · obtain ⟨i1, i2⟩ := ih (step serial s e).1 h
      constructor <;> simp [List.any_append, i1, i2]

/-! Claim theorems for the session (spec sections 4.2, 5, 7). -/

/-- C1: on every exit path of `fetch` — report classified, connection
failure, timeout, or an exception raised during the wait (`exc`) — the
teardown of the `finally` block runs exactly once before `fetch` returns:
the action log contains exactly one `loop_stop` and exactly one
`disconnect`, and they are the last two actions, after the transport was
opened. -/
theorem c1_teardown_once (ip serial : String) (exc : Option PyErr)
    (pre post : List NetEvent) :
    (fetch ip serial exc pre post).log.countP isLoopStop = 1 ∧
    (fetch ip serial exc pre post).log.countP isDisconnect = 1 ∧
    (fetch ip serial exc pre post).log =
      ([Action.connectAsync ip 8883, Action.loopStart] ++
        (runEv serial initState pre).2 ++
        (runEv serial (runEv serial initState pre).1 post).2) ++
      [Action.loopStop, Action.disconnect] := by
  obtain ⟨p1, p2⟩ := runEv_acts_no_teardown serial pre initState
  obtain ⟨q1, q2⟩ := runEv_acts_no_teardown serial post (runEv serial initState pre).1
  refine ⟨?_, ?_, by simp [fetch]⟩ <;>
    simp [fetch, List.countP_append, List.countP_cons, p1, p2, q1, q2,
      isLoopStop, isDisconnect]

/-- C2: for every run with no exception in the `try` block in which either a
connection-failure callback fired (transport or authentication failure) or
the bounded wait returned without the event having been set (timeout with no
qualifying report), `fetch` returns `"Unknown"` rather than raising, and the
two causes produce the identical return value. -/
theorem c2_failures_fold_to_unknown (ip serial : String) (pre post : List NetEvent)
    (h : (pre ++ post).any isFailEvt = true ∨
         (runEv serial initState pre).1.event_set = false) :
    (fetch ip serial none pre post).result = .ok "Unknown" := by
  rcases h with h | h
  · have herr :
        ((runEv serial (runEv serial initState pre).1 post).1).connection_error.isSome = true := by
      have h2 := runEv_fail_err serial (pre ++ post) initState h
      rwa [runEv_append] at h2
    simp [fetch, herr]
  · by_cases herr :
        ((runEv serial (runEv serial initState pre).1 post).1).connection_error.isSome = true <;>
      simp [fetch, herr, h]

/-- C2 witness: a failed connection yields `"Unknown"`. -/
theorem c2_witness :
    (fetch "printer.local" "SER" none [NetEvent.connectFail] []).result = .ok "Unknown" :=
  c2_failures_fold_to_unknown "printer.local" "SER" [NetEvent.connectFail] [] (Or.inl rfl)

/-- C7 counterexample: two qualifying messages arrive in quick succession
(both delivered before the wait returns).  The claim says the second has no
observable effect, but `on_message` overwrites `status_data`
unconditionally, so the session classifies the second message (`"2h 5m"`),
not the first (`"Done"`). -/
theorem c7_cex :
    (fetch "printer.local" "SER" none
      [NetEvent.message (some (.obj [("print",
          .obj [("gcode_state", .str "FINISH")])])),
       NetEvent.message (some (.obj [("print",
          .obj [("gcode_state", .str "RUNNING"), ("mc_remaining_time", .num 125)])]))]
      []).result = .ok "2h 5m" ∧
    (fetch "printer.local" "SER" none
      [NetEvent.message (some (.obj [("print",
          .obj [("gcode_state", .str "FINISH")])]))]
      []).result = .ok "Done" ∧
    ("2h 5m" : String) ≠ "Done" :=
  ⟨rfl, rfl, by decide⟩

/-- C7 as amended: signaling the single-fire wait more than once causes no
error — the event flag is simply true as soon as any signal has occurred —
but the captured report is the LAST qualifying message delivered before the
loop stops, not the first: every later qualifying message overwrites the
cell and determines the classified result. -/
theorem c7_last_message_wins (serial : String) (pre post : List NetEvent) :
    ((runEv serial initState (pre ++ post)).1).status_data = lastQual (pre ++ post) ∧
    ((runEv serial initState (pre ++ post)).1).event_set = (pre ++ post).any sigEvt := by
  constructor
  · simpa [initState, lastQual] using
      runEv_status_foldl serial (pre ++ post) initState
  · simpa [initState] using runEv_event_any serial (pre ++ post) initState

/-- C8: in every session, every publish to the request topic
`device/{serial}/request` is preceded in the action log by a subscribe to
the report topic `device/{serial}/report` (the log scan `orderOK` never sees
a request-publish before a report-subscribe), and every session that reaches
the connected state actually issues both actions. -/
theorem c8_subscribe_before_publish (ip serial : String) (exc : Option PyErr)
    (pre post : List NetEvent) :
    orderOK serial false (fetch ip serial exc pre post).log = true ∧
    ((pre ++ post).any isConnOK = true →
      (fetch ip serial exc pre post).log.any (isSubAct serial) = true ∧
      (fetch ip serial exc pre post).log.any (isPubAct serial) = true) := by
  have hlog : (fetch ip serial exc pre post).log =
      [Action.connectAsync ip 8883, Action.loopStart] ++
        ((runEv serial initState pre).2 ++
          ((runEv serial (runEv serial initState pre).1 post).2 ++
            [Action.loopStop, Action.disconnect])) := by
    simp [fetch]
  constructor
  · rw [hlog]
    have htail : ∀ b, orderOK serial b [Action.loopStop, Action.disconnect] = true := by
      intro b; rfl
    have hmid : ∀ b, orderOK serial b
        ((runEv serial (runEv serial initState pre).1 post).2 ++
          [Action.loopStop, Action.disconnect]) = true := by
      intro b; exact orderOK_runEv serial post _ b _ htail
    show orderOK serial false ((runEv serial initState pre).2 ++ _) = true
    exact orderOK_runEv serial pre _ false _ hmid
  · intro h
    rw [List.any_append, Bool.or_eq_true] at h
    constructor <;> rw [hlog] <;>
      rcases h with h | h
    · obtain ⟨h1, _⟩ := runEv_connOK_acts serial pre initState h
      simp [List.any_append, h1]
    · obtain ⟨h1, _⟩ := runEv_connOK_acts serial post (runEv serial initState pre).1 h
      simp [List.any_append, h1]
    · obtain ⟨_, h2⟩ := runEv_connOK_acts serial pre initState h
      simp [List.any_append, h2]
    · obtain ⟨_, h2⟩ := runEv_connOK_acts serial post (runEv serial initState pre).1 h
      simp [List.any_append, h2]

/-- C8 witness: a session whose connection succeeds subscribes (and its log
passes the order scan). -/
theorem c8_witness :
    orderOK "SER" false (fetch "printer.local" "SER" none [NetEvent.connect 0] []).log = true ∧
    (fetch "printer.local" "SER" none [NetEvent.connect 0] []).log.any (isSubAct "SER") = true := by
  have h := c8_subscribe_before_publish "printer.local" "SER" none [NetEvent.connect 0] []
  exact ⟨h.1, (h.2 (by decide)).1⟩

/-- C9: a non-parseable message (`json.loads` raises) or a parsed payload
without a top-level `print` section is ignored without aborting the session:
the callback leaves `status_data`, the event flag and `connection_error`
unchanged and issues no action, and delivering such a message anywhere in
the event stream leaves the whole run unchanged (in particular such a
payload can never reach the classifier, which only ever sees
`status_data`). -/
theorem c9_malformed_ignored (serial : String) (s : SessionState) (raw : Option Json)
    (h : raw = none ∨ ∃ p, raw = some p ∧ qualifies p = false) :
    step serial s (.message raw) = (s, []) ∧
    ∀ es : List NetEvent, runEv serial s (NetEvent.message raw :: es) = runEv serial s es := by
  have hstep : step serial s (.message raw) = (s, []) := by
    rcases h with rfl | ⟨p, rfl, hq⟩
    · rfl
    · simp [step, hq]
  refine ⟨hstep, fun es => ?_⟩
  simp [runEv, hstep]

/-- C9 witness: an unparseable payload is a no-op on a state that already
captured a report. -/
theorem c9_witness :
    step "SER" ⟨some (.obj [("print", .obj [])]), true, none⟩ (.message none) =
      (⟨some (.obj [("print", .obj [])]), true, none⟩, []) :=
  (c9_malformed_ignored "SER" ⟨some (.obj [("print", .obj [])]), true, none⟩ none
    (Or.inl rfl)).1

/-- C10: the recorded connection error has priority over a captured report:
whenever the `connection_error` cell is set by the end of the session,
`fetch` returns `"Unknown"`, even if a qualifying report was also captured,
because line 93 checks `connection_error` before `status_data`. -/
theorem c10_error_priority (ip serial : String) (pre post : List NetEvent)
    (h : ((runEv serial initState (pre ++ post)).1).connection_error.isSome = true) :
    (fetch ip serial none pre post).result = .ok "Unknown" := by
  rw [runEv_append] at h
  simp only at h
  simp [fetch, h]

/-- C10 witness: a qualifying report is captured AND a connection failure is
recorded; the result is still `"Unknown"` although the captured report alone
would classify as `"Done"`. -/
theorem c10_witness :
    (fetch "printer.local" "SER" none
      [NetEvent.message (some (.obj [("print", .obj [("gcode_state", .str "FINISH")])])),
       NetEvent.connectFail] []).result = .ok "Unknown" :=
  c10_error_priority "printer.local" "SER"
    [NetEvent.message (some (.obj [("print", .obj [("gcode_state", .str "FINISH")])])),
     NetEvent.connectFail] [] rfl

end Bambu
